import Mathlib

/-!
Verification of the OSC mixer-control client (`src/osc-client.ts`).

The development shallowly embeds the client's request/response correlation
layer, its connection lifecycle, and its unit-conversion arithmetic:

* `responseCallbacks` (line 7) is a JS `Map<string, resolve>`; we model it
  semantically as a function `String → Option Nat`, where a `Nat` call id
  stands for the stored `resolve` function of one `sendAndReceive` promise.
* The `"*"` message handler (lines 27-35) becomes `onStar`.
* `sendCommand` (lines 66-74) becomes `sendCommandCore` / `sendCommand`:
  when not connected it logs "OSC not connected" and returns; it never
  throws, so its caller observes no error.
* `sendAndReceive` (lines 76-89) is embedded twice at different grain:
  `sendAndReceiveOps` records the statement order of its body (register the
  resolver, transmit, arm the 1000 ms timer), and `step` gives the event
  semantics of one tracked call (inbound datagram dispatch, timer firing).
* `connect` (lines 42-64) and `close` (lines 695-698) act on `ClientState`;
  the `setInterval` handle created at line 57 is discarded by the source,
  which is why `close` cannot clear it — `intervalActive` records that.
* JS number arithmetic of the unit codecs is modelled exactly over `ℚ`.
-/

/-- A typed OSC wire argument (32-bit float, 32-bit int, or string at the
protocol level; the embedding keeps the values mathematical). -/
inductive OSCValue where
  | int (n : Int)
  | float (q : ℚ)
  | str (s : String)
deriving DecidableEq

/-- An outbound datagram: address plus ordered argument list. -/
structure OutMessage where
  address : String
  args : List OSCValue
deriving DecidableEq

/-- An inbound datagram, as delivered to the `"*"` handler. -/
structure InMessage where
  address : String
  args : List OSCValue
deriving DecidableEq

/-- `Map.set` semantics of the `responseCallbacks` map (line 78). -/
def mapSet (m : String → Option Nat) (k : String) (v : Nat) : String → Option Nat :=
  fun a => if a = k then some v else m a

/-- `Map.delete` semantics of the `responseCallbacks` map (lines 33, 84). -/
def mapDelete (m : String → Option Nat) (k : String) : String → Option Nat :=
  fun a => if a = k then none else m a

/-- `sendCommand` (lines 66-74): when the connected flag is false it logs
"OSC not connected" to the console and returns without sending and without
raising any error; otherwise it builds and sends the datagram. The result is
the pair (console log lines, datagram actually transmitted). -/
def sendCommandCore (isConnected : Bool) (address : String) (args : List OSCValue) :
    List String × Option OutMessage :=
  if isConnected then ([], some ⟨address, args⟩)
  else (["OSC not connected"], none)

/-- The fixed `setTimeout` delay of `sendAndReceive` (line 87). -/
def timeoutMs : Nat := 1000

/-- The rejection message built at line 85. -/
def timeoutMessage (address : String) : String :=
  "Timeout waiting for response from " ++ address

/-- The `"*"` handler body (lines 27-35): look the address up in
`responseCallbacks`; if a callback is registered and the argument list is
non-empty, invoke the callback on the first argument and delete the entry;
otherwise do nothing. Returns the updated map and, when a callback fired,
its call id together with the value it received. -/
def onStar (pending : String → Option Nat) (msg : InMessage) :
    (String → Option Nat) × Option (Nat × OSCValue) :=
  match pending msg.address, msg.args with
  | some cb, v :: _ => (mapDelete pending msg.address, some (cb, v))
  | _, _ => (pending, none)

/-- One primitive effect inside the body of `sendAndReceive` (lines 76-89). -/
inductive MicroOp where
  | register (address : String) (callId : Nat)
  | transmit (address : String) (args : List OSCValue)
  | armTimer (address : String) (ms : Nat)
deriving DecidableEq

/-- The body of `sendAndReceive` in source statement order: line 78 registers
the resolver in `responseCallbacks`, line 79 transmits the request, line 82
arms the 1000 ms timeout. -/
def sendAndReceiveOps (address : String) (args : List OSCValue) (callId : Nat) :
    List MicroOp :=
  [MicroOp.register address callId, MicroOp.transmit address args,
   MicroOp.armTimer address timeoutMs]

/-- Effect of one `sendAndReceive` micro-step on the callback map. -/
def runOp (pending : String → Option Nat) (op : MicroOp) : String → Option Nat :=
  match op with
  | MicroOp.register a c => mapSet pending a c
  | MicroOp.transmit _ _ => pending
  | MicroOp.armTimer _ _ => pending

/-- Effect of a sequence of `sendAndReceive` micro-steps on the callback map. -/
def runOps (pending : String → Option Nat) (ops : List MicroOp) : String → Option Nat :=
  ops.foldl runOp pending

/-- Net effect of issuing `sendAndReceive address args` (resolver id
`callId`) on the `responseCallbacks` map. -/
def issuePending (pending : String → Option Nat) (address : String)
    (args : List OSCValue) (callId : Nat) : String → Option Nat :=
  runOps pending (sendAndReceiveOps address args callId)

/-- State of the correlator together with one tracked `sendAndReceive`
promise: the shared callback map, the tracked call's address, the id of its
`resolve` function, and the settlement of its promise (`none` while pending,
`Except.ok` on resolve, `Except.error` on reject). -/
structure CallState where
  pending : String → Option Nat
  address : String
  callId : Nat
  result : Option (Except String OSCValue)

/-- Asynchronous events that can act on a `CallState`: an inbound datagram
dispatched through the `"*"` handler, or the firing of the tracked call's
1000 ms timeout (lines 82-87). -/
inductive Ev where
  | recv (msg : InMessage)
  | timerFire

/-- A JS promise settles at most once; later resolve/reject calls are
ignored. -/
def settle (r : Option (Except String OSCValue)) (v : Except String OSCValue) :
    Option (Except String OSCValue) :=
  match r with
  | none => some v
  | some w => some w

/-- Event semantics of one tracked call. `Ev.recv` runs the `"*"` handler
(lines 27-35); when the fired callback is the tracked call's resolver, the
tracked promise resolves with the received value. `Ev.timerFire` runs the
`setTimeout` body (lines 82-87): if `responseCallbacks` still holds the
tracked address, the entry is deleted and the tracked promise is rejected
with the timeout message. -/
def step (cs : CallState) (e : Ev) : CallState :=
  match e with
  | Ev.recv msg =>
      match onStar cs.pending msg with
      | (p, some fired) =>
          { cs with
            pending := p
            result :=
              (if fired.1 = cs.callId then settle cs.result (Except.ok fired.2)
               else cs.result) }
      | (p, none) => { cs with pending := p }
  | Ev.timerFire =>
      if (cs.pending cs.address).isSome then
        { cs with
          pending := mapDelete cs.pending cs.address
          result := settle cs.result (Except.error (timeoutMessage cs.address)) }
      else cs

/-- Connection-level state of one `OSCClient`: the callback map, the
`isConnected` flag (line 8), and whether the keep-alive interval created at
line 57 exists (its handle is discarded by the source, so nothing can ever
clear it). -/
structure ClientState where
  pending : String → Option Nat
  isConnected : Bool
  intervalActive : Bool

/-- `sendCommand` (lines 66-74) at the client level. -/
def sendCommand (s : ClientState) (address : String) (args : List OSCValue) :
    List String × Option OutMessage :=
  sendCommandCore s.isConnected address args

/-- `close` (lines 695-698): clears the connected flag and closes the
socket. It does not touch `responseCallbacks` and it cannot clear the
keep-alive interval, whose handle was never stored. -/
def close (s : ClientState) : ClientState :=
  { s with isConnected := false }

/-- `connect` (lines 42-64): opens the socket, sets the connected flag
(line 50), sends the one-shot `/xcontrol` subscription command (line 54),
and starts the 9-second `/xremote` interval (line 57). Returns the new state
and the datagrams transmitted during `connect` itself. -/
def connect (s : ClientState) : ClientState × List OutMessage :=
  let s1 : ClientState := { s with isConnected := true, intervalActive := true }
  (s1, (sendCommand s1 "/xcontrol" []).2.toList)

/-- The `setInterval` period of line 57. -/
def xremotePeriodMs : Nat := 9000

/-- In one connect-then-close lifecycle (connect succeeds at time 0, `close`
is called at time `tclose`), whether the client flag is still set at time
`t`. -/
def connectedAt (tclose t : Nat) : Bool := decide (t < tclose)

/-- The interval callback of line 57, firing at time `t` of the lifecycle:
it runs `sendCommand "/xremote"` against the connection flag current at that
time (the interval itself is never cancelled). The result is the datagram
actually transmitted, if any. -/
def intervalSend (tclose t : Nat) : Option OutMessage :=
  (sendCommandCore (connectedAt tclose t) "/xremote" []).2

/-- `padStart` of JS strings: left-pad with `c` up to length `len`. -/
def padStart (len : Nat) (c : Char) (s : String) : String :=
  String.mk (List.replicate (len - s.length) c) ++ s

/-- `getChannelPath` (lines 91-93). -/
def getChannelPath (channel : Nat) : String :=
  "/ch/" ++ padStart 2 '0' (toString channel)

/-- `setFader` (lines 117-120): an `async` method that builds the path and
calls `sendCommand`; it resolves normally whether or not the client is
connected, because `sendCommand` never throws. The `Except` layer models the
promise (resolve = `Except.ok`, reject = `Except.error`). -/
def setFader (s : ClientState) (channel : Nat) (level : OSCValue) :
    Except String (List String × Option OutMessage) :=
  Except.ok (sendCommand s (getChannelPath channel ++ "/mix/fader") [level])

/-- Pan encoding from `setPan` (line 142): `mixerPan = (pan + 1) / 2`. -/
def mixerPan (pan : ℚ) : ℚ := (pan + 1) / 2

/-- Pan decoding from `getPan` (line 150): `value * 2 - 1`. -/
def getPanDecode (value : ℚ) : ℚ := value * 2 - 1

/-- EQ gain encoding from `setEQ` (line 173): `mixerGain = (gain + 15) / 30`. -/
def mixerGain (gain : ℚ) : ℚ := (gain + 15) / 30

/-- EQ gain decoding from `getEQ` (line 181): `value * 30 - 15`. -/
def getEQDecode (value : ℚ) : ℚ := value * 30 - 15

/-- `muteChannel` (lines 127-131): sends `mute ? 0 : 1` to the channel's
`/mix/on` path (wire 1 = unmuted). -/
def muteChannelMsg (channel : Nat) (mute : Bool) : OutMessage :=
  ⟨getChannelPath channel ++ "/mix/on", [OSCValue.int (if mute then 0 else 1)]⟩

/-- The decode of `getMute` (line 136): `value === 0`. -/
def getMuteDecode (value : OSCValue) : Bool :=
  decide (value = OSCValue.int 0)

/-- `setGateOn` (lines 219-222): sends `on ? 1 : 0` to `/gate/on`. -/
def setGateOnMsg (channel : Nat) (gateOn : Bool) : OutMessage :=
  ⟨getChannelPath channel ++ "/gate/on", [OSCValue.int (if gateOn then 1 else 0)]⟩

/-- `setEQOn` (lines 199-202): sends `on ? 1 : 0` to `/eq/on`. -/
def setEQOnMsg (channel : Nat) (eqOn : Bool) : OutMessage :=
  ⟨getChannelPath channel ++ "/eq/on", [OSCValue.int (if eqOn then 1 else 0)]⟩

/-- A sample callback map with one pending call for `/info` (resolver id 0),
used by the concrete witnesses below. -/
def pendInfo : String → Option Nat :=
  fun a => if a = "/info" then some 0 else none

/-- A sample tracked call on `/info`, still pending and unsettled. -/
def csInfo : CallState :=
  ⟨pendInfo, "/info", 0, none⟩

/-- C8: the pan and EQ-gain codec pairs are exact inverses over their whole input
space (modelled exactly over ℚ), including the documented domain boundaries and
midpoints (pan: -1, 0, +1; EQ gain: -15, 0, +15), and no clamping is applied:
out-of-domain inputs pass straight through the affine maps. -/
theorem codec_roundtrip_exact : ∀ x : ℚ,
    getPanDecode (mixerPan x) = x ∧
    getEQDecode (mixerGain x) = x ∧
    mixerPan (-1) = 0 ∧ mixerPan 0 = 1/2 ∧ mixerPan 1 = 1 ∧
    mixerGain (-15) = 0 ∧ mixerGain 0 = 1/2 ∧ mixerGain 15 = 1 ∧
    mixerPan 3 = 2 ∧ mixerGain 45 = 2 := by
  intro x
  refine ⟨?_, ?_, by norm_num [mixerPan], by norm_num [mixerPan], by norm_num [mixerPan],
    by norm_num [mixerGain], by norm_num [mixerGain], by norm_num [mixerGain],
    by norm_num [mixerPan], by norm_num [mixerGain]⟩
  · unfold getPanDecode mixerPan; ring
  · unfold getEQDecode mixerGain; ring

/-- C9: mute polarity is inverted with respect to the on/enabled controls and is
kept per-path: muting sends wire 0 to the channel's /mix/on path and unmuting
sends 1, getMute reports muted exactly when the reply value is 0, while gate-on
and EQ-on send 1 for enabled on their own paths. -/
theorem mute_polarity_inverted : ∀ ch : Nat,
    muteChannelMsg ch true = ⟨getChannelPath ch ++ "/mix/on", [OSCValue.int 0]⟩ ∧
    muteChannelMsg ch false = ⟨getChannelPath ch ++ "/mix/on", [OSCValue.int 1]⟩ ∧
    (∀ v, getMuteDecode v = true ↔ v = OSCValue.int 0) ∧
    setGateOnMsg ch true = ⟨getChannelPath ch ++ "/gate/on", [OSCValue.int 1]⟩ ∧
    setGateOnMsg ch false = ⟨getChannelPath ch ++ "/gate/on", [OSCValue.int 0]⟩ ∧
    setEQOnMsg ch true = ⟨getChannelPath ch ++ "/eq/on", [OSCValue.int 1]⟩ ∧
    getChannelPath 1 = "/ch/01" := by
  intro ch
  refine ⟨rfl, rfl, ?_, rfl, rfl, rfl, by decide⟩
  intro v
  simp [getMuteDecode]

/-- C7: inside the body of sendAndReceive, the resolver is registered (line 78)
strictly before the request datagram is transmitted (line 79): the transmit step
sits after a prefix of the body that contains the registration, and the callback
map at the moment of transmission already holds the call's resolver. -/
theorem register_before_transmit
    (address : String) (args : List OSCValue) (callId : Nat)
    (pending : String → Option Nat) :
    ∃ pre post,
      sendAndReceiveOps address args callId = pre ++ MicroOp.transmit address args :: post ∧
      MicroOp.register address callId ∈ pre ∧
      runOps pending pre address = some callId := by
  refine ⟨[MicroOp.register address callId], [MicroOp.armTimer address timeoutMs],
    rfl, List.mem_singleton.mpr rfl, ?_⟩
  simp [runOps, runOp, mapSet]

/-- C3: the callback map keeps at most one resolver per address, and issuing a
second call on an address while a first is outstanding overwrites the first
registration rather than queuing it: after the second issue the address maps to
the second resolver and the first resolver is registered nowhere. -/
theorem issue_same_address_overwrites
    (pending : String → Option Nat) (A : String) (c1 c2 : Nat) (args : List OSCValue)
    (h1 : pending A = some c1)
    (honly : ∀ b, b ≠ A → pending b ≠ some c1)
    (hne : c2 ≠ c1) :
    issuePending pending A args c2 A = some c2 ∧
    ∀ b, issuePending pending A args c2 b ≠ some c1 := by
  constructor
  · simp [issuePending, sendAndReceiveOps, runOps, runOp, mapSet]
  · intro b
    by_cases hb : b = A
    · subst hb
      simp [issuePending, sendAndReceiveOps, runOps, runOp, mapSet, hne]
    · simpa [issuePending, sendAndReceiveOps, runOps, runOp, mapSet, hb] using honly b hb

/-- C3 witness: with resolver 0 pending on /info, issuing a second call with
resolver 1 on /info leaves /info mapped to 1 and resolver 0 registered neither at
/info nor at /status. -/
theorem issue_same_address_overwrites_w :
    pendInfo "/info" = some 0 ∧ (1 : Nat) ≠ 0 ∧
    issuePending pendInfo "/info" [] 1 "/info" = some 1 ∧
    issuePending pendInfo "/info" [] 1 "/status" ≠ some 0 := by
  have h := issue_same_address_overwrites pendInfo "/info" 0 1 []
    rfl (fun b hb => by simp [pendInfo, hb]) (by decide)
  exact ⟨rfl, by decide, h.1, h.2 "/status"⟩

/-- C1: while a call on address A is pending, an inbound datagram for exactly A
carrying at least one argument resolves that call with its first argument and
removes its Pending Call entry; an inbound datagram for any other address B leaves
A's promise unresolved and A's entry in place. -/
theorem recv_correlates_by_address
    (cs : CallState) (v : OSCValue) (rest : List OSCValue) (B : String)
    (args : List OSCValue)
    (hpend : cs.pending cs.address = some cs.callId)
    (hres : cs.result = none)
    (honly : ∀ b, b ≠ cs.address → cs.pending b ≠ some cs.callId)
    (hB : B ≠ cs.address) :
    (step cs (Ev.recv ⟨cs.address, v :: rest⟩)).result = some (Except.ok v) ∧
    (step cs (Ev.recv ⟨cs.address, v :: rest⟩)).pending cs.address = none ∧
    (step cs (Ev.recv ⟨B, args⟩)).result = none ∧
    (step cs (Ev.recv ⟨B, args⟩)).pending cs.address = some cs.callId := by
  refine ⟨?_, ?_, ?_, ?_⟩
  · simp [step, onStar, hpend, hres, settle]
  · simp [step, onStar, hpend, mapDelete]
  · cases hpb : cs.pending B with
    | none =>
        cases args with
        | nil => simp [step, onStar, hpb, hres]
        | cons w ws => simp [step, onStar, hpb, hres]
    | some cb =>
        cases args with
        | nil => simp [step, onStar, hpb, hres]
        | cons w ws =>
            have hcb : cb ≠ cs.callId := by
              intro hcbeq
              exact honly B hB (hcbeq ▸ hpb)
            simp [step, onStar, hpb, hres, hcb]
  · cases hpb : cs.pending B with
    | none =>
        cases args with
        | nil => simp [step, onStar, hpb, hpend]
        | cons w ws => simp [step, onStar, hpb, hpend]
    | some cb =>
        cases args with
        | nil => simp [step, onStar, hpb, hpend]
        | cons w ws =>
            simp [step, onStar, hpb, mapDelete, Ne.symm hB, hpend]

/-- C1 witness: with resolver 0 pending on /info, a datagram for /info carrying 7
resolves the call with 7 and clears the entry, while a datagram for /status does
neither. -/
theorem recv_correlates_by_address_w :
    csInfo.pending csInfo.address = some csInfo.callId ∧
    csInfo.result = none ∧
    (step csInfo (Ev.recv ⟨csInfo.address, [OSCValue.int 7]⟩)).result =
      some (Except.ok (OSCValue.int 7)) ∧
    (step csInfo (Ev.recv ⟨csInfo.address, [OSCValue.int 7]⟩)).pending csInfo.address = none ∧
    (step csInfo (Ev.recv ⟨"/status", [OSCValue.int 7]⟩)).result = none ∧
    (step csInfo (Ev.recv ⟨"/status", [OSCValue.int 7]⟩)).pending csInfo.address = some csInfo.callId := by
  have h := recv_correlates_by_address csInfo (OSCValue.int 7) [] "/status"
    [OSCValue.int 7] rfl rfl
    (fun b hb => by
      simp only [csInfo, pendInfo] at hb ⊢
      simp [hb])
    (by decide)
  exact ⟨rfl, rfl, h.1, h.2.1, h.2.2.1, h.2.2.2⟩

/-- Helper: a datagram whose address has no entry in the callback map leaves the
state untouched (the `"*"` handler falls through). -/
theorem step_recv_no_entry (cs : CallState) (msg : InMessage)
    (h : cs.pending msg.address = none) :
    step cs (Ev.recv msg) = cs := by
  cases cs with
  | mk p a c r =>
      simp only at h
      simp [step, onStar, h]

/-- C2: when the 1000 ms timer of a still-pending call fires, the promise is
rejected with the Timeout message naming the address and the Pending Call entry is
removed; a matching reply arriving after the timeout leaves the whole state
unchanged — it is silently dropped, neither applied to any caller nor an error. -/
theorem timeout_rejects_and_drops_late_reply
    (cs : CallState) (v : OSCValue) (rest : List OSCValue)
    (hpend : cs.pending cs.address = some cs.callId)
    (hres : cs.result = none) :
    timeoutMs = 1000 ∧
    (step cs Ev.timerFire).result =
      some (Except.error ("Timeout waiting for response from " ++ cs.address)) ∧
    (step cs Ev.timerFire).pending cs.address = none ∧
    step (step cs Ev.timerFire) (Ev.recv ⟨cs.address, v :: rest⟩) = step cs Ev.timerFire := by
  refine ⟨rfl, ?_, ?_, ?_⟩
  · simp [step, hpend, hres, settle, timeoutMessage]
  · simp [step, hpend, mapDelete]
  · exact step_recv_no_entry _ _ (by simp [step, hpend, mapDelete])

/-- C2 witness: for the pending /info call, the timer rejects with the Timeout
message naming /info, removes the entry, and a late /info reply changes nothing. -/
theorem timeout_rejects_and_drops_late_reply_w :
    timeoutMs = 1000 ∧
    csInfo.pending csInfo.address = some csInfo.callId ∧
    (step csInfo Ev.timerFire).result =
      some (Except.error ("Timeout waiting for response from " ++ csInfo.address)) ∧
    (step csInfo Ev.timerFire).pending csInfo.address = none ∧
    step (step csInfo Ev.timerFire) (Ev.recv ⟨csInfo.address, [OSCValue.int 3]⟩) =
      step csInfo Ev.timerFire := by
  have h := timeout_rejects_and_drops_late_reply csInfo (OSCValue.int 3) [] rfl rfl
  exact ⟨h.1, rfl, h.2.1, h.2.2.1, h.2.2.2⟩

/-- C10: an inbound datagram whose address matches the pending call but whose
argument list is empty neither resolves nor removes the Pending Call — the state
is unchanged — and the call then still fails with the Timeout rejection when its
timer fires. -/
theorem empty_args_reply_ignored
    (cs : CallState)
    (hpend : cs.pending cs.address = some cs.callId)
    (hres : cs.result = none) :
    step cs (Ev.recv ⟨cs.address, []⟩) = cs ∧
    (step (step cs (Ev.recv ⟨cs.address, []⟩)) Ev.timerFire).result =
      some (Except.error (timeoutMessage cs.address)) := by
  have hid : step cs (Ev.recv ⟨cs.address, []⟩) = cs := by
    cases cs with
    | mk p a c r => simp [step, onStar]
  refine ⟨hid, ?_⟩
  rw [hid]
  simp [step, hpend, hres, settle]

/-- C10 witness: an empty-argument /info datagram leaves the pending /info call
untouched, and the timer afterwards rejects it with the Timeout message. -/
theorem empty_args_reply_ignored_w :
    csInfo.pending csInfo.address = some csInfo.callId ∧
    csInfo.result = none ∧
    step csInfo (Ev.recv ⟨csInfo.address, []⟩) = csInfo ∧
    (step (step csInfo (Ev.recv ⟨csInfo.address, []⟩)) Ev.timerFire).result =
      some (Except.error (timeoutMessage csInfo.address)) := by
  have h := empty_args_reply_ignored csInfo rfl rfl
  exact ⟨rfl, rfl, h.1, h.2⟩

/-- Whether a promise-shaped result resolved rather than rejected. -/
def resolvedOk {α : Type} (r : Except String α) : Bool :=
  match r with
  | Except.ok _ => true
  | Except.error _ => false

/-- C4 counterexample: on a fresh client that was never connected, a send
operation does not fail: setFader resolves normally with Except.ok, only logging
"OSC not connected" and transmitting nothing, so no NotConnected error reaches the
caller. -/
theorem send_when_disconnected_cex :
    resolvedOk (setFader ⟨fun _ => none, false, false⟩ 1 (OSCValue.int 0)) = true ∧
    setFader ⟨fun _ => none, false, false⟩ 1 (OSCValue.int 0) =
      Except.ok (["OSC not connected"], none) :=
  ⟨rfl, rfl⟩

/-- C4 (amended): a send attempted before connect has succeeded or after close is
not transmitted; sendCommand logs "OSC not connected" and returns without raising
any error, so an async setter resolves normally, and a request/response call
issued in that state is eventually rejected by its own timer with the Timeout
message, not a NotConnected error. -/
theorem send_when_disconnected_logs_only
    (s : ClientState) (ch : Nat) (v : OSCValue) (A : String)
    (args : List OSCValue) (cid : Nat)
    (h : s.isConnected = false) :
    setFader s ch v = Except.ok (["OSC not connected"], none) ∧
    setFader (close s) ch v = Except.ok (["OSC not connected"], none) ∧
    (step ⟨issuePending s.pending A args cid, A, cid, none⟩ Ev.timerFire).result =
      some (Except.error (timeoutMessage A)) := by
  refine ⟨?_, ?_, ?_⟩
  · simp [setFader, sendCommand, sendCommandCore, h]
  · simp [setFader, sendCommand, sendCommandCore, close]
  · simp [step, issuePending, sendAndReceiveOps, runOps, runOp, mapSet, settle]

/-- C4 witness: the amended behavior at a concrete disconnected client. -/
theorem send_when_disconnected_logs_only_w :
    (ClientState.mk (fun _ => none) false false).isConnected = false ∧
    setFader ⟨fun _ => none, false, false⟩ 2 (OSCValue.float (1/2)) =
      Except.ok (["OSC not connected"], none) ∧
    setFader (close ⟨fun _ => none, false, false⟩) 2 (OSCValue.float (1/2)) =
      Except.ok (["OSC not connected"], none) ∧
    (step ⟨issuePending (fun _ => none) "/info" [] 0, "/info", 0, none⟩ Ev.timerFire).result =
      some (Except.error (timeoutMessage "/info")) := by
  have h := send_when_disconnected_logs_only ⟨fun _ => none, false, false⟩ 2
    (OSCValue.float (1/2)) "/info" [] 0 rfl
  exact ⟨rfl, h.1, h.2.1, h.2.2⟩

/-- C5 counterexample: close on a client with one pending call and the keep-alive
interval running leaves the pending entry registered (the call is not failed with
any Closed error — no Closed error exists in the code) and leaves the interval
alive (the recurring timer, whose handle was never stored, is not cancelled). -/
theorem close_cex :
    (close ⟨pendInfo, true, true⟩).pending "/info" = some 0 ∧
    (close ⟨pendInfo, true, true⟩).intervalActive = true :=
  ⟨rfl, rfl⟩

/-- C5 (amended): close only clears the connected flag and closes the socket; the
callback map and the keep-alive interval survive unchanged — pending calls are not
failed (they later fail with their own Timeout) and the recurring timer keeps
firing — but any interval send after close is suppressed by the connected check,
so no datagram is transmitted. -/
theorem close_clears_flag_only (s : ClientState) :
    (close s).isConnected = false ∧
    (close s).pending = s.pending ∧
    (close s).intervalActive = s.intervalActive ∧
    (sendCommand (close s) "/xremote" []).2 = none := by
  refine ⟨rfl, rfl, rfl, ?_⟩
  simp [sendCommand, sendCommandCore, close]

/-- C6: connect transmits the one-shot /xcontrol subscription exactly once; the
distinct /xremote renewal is transmitted at every 9000 ms interval tick that
precedes close, and no renewal datagram is transmitted at or after the close
instant. -/
theorem keepalive_sends
    (s : ClientState) (tclose k t : Nat)
    (_hk : 0 < k) (hfire : xremotePeriodMs * k < tclose) (hlate : tclose ≤ t) :
    (connect s).2 = [⟨"/xcontrol", []⟩] ∧
    "/xremote" ≠ "/xcontrol" ∧
    xremotePeriodMs = 9000 ∧
    intervalSend tclose (xremotePeriodMs * k) = some ⟨"/xremote", []⟩ ∧
    intervalSend tclose t = none := by
  refine ⟨rfl, by decide, rfl, ?_, ?_⟩
  · simp [intervalSend, sendCommandCore, connectedAt, hfire]
  · simp [intervalSend, sendCommandCore, connectedAt, Nat.not_lt.mpr hlate]

/-- C6 witness: with close at 10000 ms, the first interval tick at 9000 ms
transmits /xremote and the tick at 10000 ms transmits nothing. -/
theorem keepalive_sends_w :
    (0 : Nat) < 1 ∧ xremotePeriodMs * 1 < 10000 ∧ (10000 : Nat) ≤ 10000 ∧
    (connect ⟨fun _ => none, false, false⟩).2 = [⟨"/xcontrol", []⟩] ∧
    intervalSend 10000 (xremotePeriodMs * 1) = some ⟨"/xremote", []⟩ ∧
    intervalSend 10000 10000 = none := by
  have h := keepalive_sends ⟨fun _ => none, false, false⟩ 10000 1 10000
    (by decide) (by decide) (by decide)
  exact ⟨by decide, by decide, by decide, h.1, h.2.2.2.1, h.2.2.2.2⟩
